import Mathlib

/-!
Verification development for the drive-uploader worker: a shallow embedding
of the chunked resumable-upload orchestrator (session initializer, chunk
relay, upload driver, metadata-lookup retry helper) from src/src/index.ts,
with theorems settling the stated properties of each component.
-/

namespace DriveUploader

/-! ## Data model -/

/-- Terminal artifact of an upload, as echoed by the upstream API
(fields id, name, size, mimeType; size is absent in some fallback records). -/
structure FileRecord where
  id : String
  name : String
  size : Option Nat
  mimeType : String
deriving Repr, DecidableEq

/-- Locally known facts about the file being uploaded (the browser File
object): name, MIME type (empty string when the browser reports none,
mirroring the JS falsiness of file.type), and byte size. -/
structure FileMeta where
  name : String
  mimeType : String
  size : Nat
deriving Repr, DecidableEq

/-! ## Chunk geometry (uploadFileInChunks, src/src/index.ts lines 1052-1086)

The driver computes totalChunks = Math.ceil(file.size / CHUNK_SIZE) and for
chunk index i slices start = i * CHUNK_SIZE,
end = Math.min(start + CHUNK_SIZE, file.size) (exclusive), sending header
X-Chunk-End = end - 1 (inclusive) and isLastChunk = (i == totalChunks - 1). -/

/-- totalChunks = Math.ceil(file.size / CHUNK_SIZE), as exact natural
ceiling division. -/
def totalChunks (totalSize chunkSize : Nat) : Nat :=
  (totalSize + chunkSize - 1) / chunkSize

/-- start = chunkIndex * CHUNK_SIZE. -/
def chunkStart (chunkSize i : Nat) : Nat := i * chunkSize

/-- end = Math.min(start + CHUNK_SIZE, file.size); exclusive upper bound of
the slice (the X-Chunk-End header carries this value minus 1). -/
def chunkEndEx (totalSize chunkSize i : Nat) : Nat :=
  min (i * chunkSize + chunkSize) totalSize

/-- Byte length of slice i, i.e. chunk.size of file.slice(start, end). -/
def chunkLen (totalSize chunkSize i : Nat) : Nat :=
  chunkEndEx totalSize chunkSize i - chunkStart chunkSize i

/-- isLastChunk = (chunkIndex === totalChunks - 1). -/
def isLastChunk (totalSize chunkSize i : Nat) : Bool :=
  i == totalChunks totalSize chunkSize - 1

/-- Running value of uploadedBytes after the chunk of index i completed:
the driver does uploadedBytes += chunk.size after every successful chunk. -/
def bytesSentAfter (totalSize chunkSize : Nat) : Nat → Nat
  | 0 => chunkLen totalSize chunkSize 0
  | i + 1 => bytesSentAfter totalSize chunkSize i + chunkLen totalSize chunkSize (i + 1)

/-- Displayed percentage, Math.round((uploadedBytes / file.size) * 100):
for nonnegative values Math.round x = floor (x + 1/2), and over exact
rationals floor (100 * b / t + 1 / 2) = (200 * b + t) / (2 * t) in natural
division. -/
def percentage (uploadedBytes totalSize : Nat) : Nat :=
  (200 * uploadedBytes + totalSize) / (2 * totalSize)

/-! ## Chunk relay (handleChunkUpload, src/src/index.ts lines 1547-1603)

The handler reads the X-Session-Url header (rejecting with 400 when absent,
before reading the body), reads the payload, rejects payloads over
MAX_CHUNK_SIZE with 413 before any upstream call, then PUTs the payload to
the session URL and interprets the upstream status: 308 gives
ok/continue, 200 or 201 gives ok/complete with the parsed body as fileData
when it parses, and any other status throws
Upload failed with status S: T where T is response.text() or, when the
body cannot be read, the empty string (the .catch handler returns two
single quotes, an empty string); the outer catch turns the thrown message
into a 500 JSON error response. -/

/-- MAX_CHUNK_SIZE = 100 * 1024 * 1024 (100 MiB). -/
def MAX_CHUNK_SIZE : Nat := 100 * 1024 * 1024

/-- Upstream response to the chunk PUT: HTTP status, the parsed JSON body
when response.json() succeeds, and the body text when response.text()
succeeds (none models a throwing body read). -/
structure UpstreamPutResponse where
  status : Nat
  jsonBody : Option FileRecord
  bodyText : Option String
deriving Repr, DecidableEq

/-- Inbound chunk request as the handler sees it: the X-Session-Url header
(none when absent), the positional headers, and the payload byte length. -/
structure ChunkRequest where
  sessionUrl : Option String
  chunkStart : Nat
  chunkEnd : Nat
  totalSize : Nat
  isLast : Bool
  payloadSize : Nat
deriving Repr, DecidableEq

/-- JSON response the relay returns to the driver, one constructor per
distinct response shape of handleChunkUpload. -/
inductive ChunkRelayResponse where
  | missingSession : ChunkRelayResponse
  | chunkTooLarge : Nat → ChunkRelayResponse
  | continueResp : ChunkRelayResponse
  | completeResp : Option FileRecord → ChunkRelayResponse
  | failedResp : String → ChunkRelayResponse
deriving Repr, DecidableEq

/-- Observable side effects of one relay call: whether the request body was
read (request.arrayBuffer()) and whether the upstream PUT was issued. -/
structure RelayEffects where
  bodyRead : Bool
  upstreamCalled : Bool
deriving Repr, DecidableEq

/-- Message of the error thrown on a non-308/200/201 upstream status:
Upload failed with status S: T, with T = response.text() when readable and
the empty string otherwise. -/
def relayErrorMessage (status : Nat) (bodyText : Option String) : String :=
  "Upload failed with status " ++ toString status ++ ": " ++ bodyText.getD ""

/-- The chunk relay handler, returning its JSON response and its effects. -/
def handleChunkUpload (req : ChunkRequest) (upstream : UpstreamPutResponse) :
    ChunkRelayResponse × RelayEffects :=
  match req.sessionUrl with
  | none => (ChunkRelayResponse.missingSession, ⟨false, false⟩)
  | some _ =>
    if req.payloadSize > MAX_CHUNK_SIZE then
      (ChunkRelayResponse.chunkTooLarge req.payloadSize, ⟨true, false⟩)
    else if upstream.status = 308 then
      (ChunkRelayResponse.continueResp, ⟨true, true⟩)
    else if upstream.status = 200 ∨ upstream.status = 201 then
      (ChunkRelayResponse.completeResp upstream.jsonBody, ⟨true, true⟩)
    else
      (ChunkRelayResponse.failedResp
        (relayErrorMessage upstream.status upstream.bodyText), ⟨true, true⟩)

/-- HTTP status the relay attaches to each response shape (json(..., s)). -/
def relayHttpStatus : ChunkRelayResponse → Nat
  | ChunkRelayResponse.missingSession => 400
  | ChunkRelayResponse.chunkTooLarge _ => 413
  | ChunkRelayResponse.continueResp => 200
  | ChunkRelayResponse.completeResp _ => 200
  | ChunkRelayResponse.failedResp _ => 500

/-- The error field of the relay response JSON body (empty on the ok
responses, which carry no error field). -/
def relayErrorField : ChunkRelayResponse → String
  | ChunkRelayResponse.missingSession => "Missing session URL"
  | ChunkRelayResponse.chunkTooLarge n =>
      "Chunk size " ++ toString n ++ " bytes exceeds maximum allowed size of "
        ++ toString MAX_CHUNK_SIZE ++ " bytes"
  | ChunkRelayResponse.failedResp m => m
  | ChunkRelayResponse.continueResp => ""
  | ChunkRelayResponse.completeResp _ => ""

/-! ## Upload driver loop (uploadFileInChunks, src/src/index.ts lines 1077-1146) -/

/-- fileData of the final chunk response: the driver reads result.fileData
and keeps it only when truthy. -/
def fileDataOf : ChunkRelayResponse → Option FileRecord
  | ChunkRelayResponse.completeResp fd => fd
  | _ => none

/-- Response.ok of the fetch API: status in the 2xx range. -/
def isOkStatus (s : Nat) : Bool := 200 ≤ s && s < 300

/-- Message thrown by the driver when chunk i (0-based) fails: the template
is Chunk (i+1) upload failed: M where M is the error field of the relay
JSON body when truthy and chunkResponse.statusText otherwise. -/
def chunkFailMsg (i : Nat) (errField stText : String) : String :=
  "Chunk " ++ toString (i + 1) ++ " upload failed: "
    ++ (if errField = "" then stText else errField)

/-- Terminal state of the sequential chunk loop: either the thrown failure
with the failing chunk index, or completion carrying finalFileData. -/
inductive LoopResult where
  | failed : Nat → String → LoopResult
  | completed : Option FileRecord → LoopResult
deriving Repr, DecidableEq

/-- The sequential chunk loop: relayAt i is the relay response for chunk i,
stOf maps an HTTP status to its statusText. Runs the given number of
remaining chunks starting at index i, returning the loop result and the
list of chunk indices for which a relay call was actually made. -/
def uploadLoopGo (relayAt : Nat → ChunkRelayResponse) (stOf : Nat → String) :
    Nat → Nat → LoopResult × List Nat
  | 0, _ => (LoopResult.completed none, [])
  | 1, i =>
    let r := relayAt i
    if isOkStatus (relayHttpStatus r) then
      (LoopResult.completed (fileDataOf r), [i])
    else
      (LoopResult.failed i
        (chunkFailMsg i (relayErrorField r) (stOf (relayHttpStatus r))), [i])
  | n + 2, i =>
    let r := relayAt i
    if isOkStatus (relayHttpStatus r) then
      let rest := uploadLoopGo relayAt stOf (n + 1) (i + 1)
      (rest.1, i :: rest.2)
    else
      (LoopResult.failed i
        (chunkFailMsg i (relayErrorField r) (stOf (relayHttpStatus r))), [i])

/-- Overall result the driver surfaces: file details shown on success, the
thrown error message on failure. -/
inductive DriverOutcome where
  | success : FileRecord → DriverOutcome
  | failure : String → DriverOutcome
deriving Repr, DecidableEq

/-- Fallback record synthesized when finalFileData is absent after all
chunks succeeded: locally known name, size and MIME type (defaulted to
application/octet-stream when the browser reported none) and the sentinel
id string. -/
def fallbackRecord (file : FileMeta) : FileRecord :=
  { id := "Upload completed successfully"
    name := file.name
    size := some file.size
    mimeType := if file.mimeType = "" then "application/octet-stream" else file.mimeType }

/-- The chunk-upload phase of uploadFileInChunks, after a successful session
init: runs the loop over totalChunks chunks and finalizes with either the
received fileData, the synthesized fallback record, or the thrown failure. -/
def uploadFileInChunks (file : FileMeta) (chunkSize : Nat)
    (relayAt : Nat → ChunkRelayResponse) (stOf : Nat → String) : DriverOutcome :=
  match (uploadLoopGo relayAt stOf (totalChunks file.size chunkSize) 0).1 with
  | LoopResult.failed _ msg => DriverOutcome.failure msg
  | LoopResult.completed (some fd) => DriverOutcome.success fd
  | LoopResult.completed none => DriverOutcome.success (fallbackRecord file)

/-! ## Session initializer (handleUploadInit, src/src/index.ts lines 1508-1545) -/

/-- Parsed body of the upload-init request. The empty string models a
missing or empty filename or mimeType and size 0 models a missing or zero
size, mirroring JS falsiness of the respective checks. -/
structure InitRequest where
  filename : String
  mimeType : String
  size : Nat
deriving Repr, DecidableEq

/-- Arguments the initializer passes to createResumableSession. -/
structure SessionOpenArgs where
  filename : String
  mimeType : String
  size : Nat
deriving Repr, DecidableEq

/-- JSON response of handleUploadInit: the 400 rejection, the ok response
echoing sessionUrl, filename, the raw (undefaulted) mimeType and size, or
the 500 error from a thrown upstream failure. -/
inductive InitResponse where
  | badRequest : String → InitResponse
  | okResp : String → String → String → Nat → InitResponse
  | errorResp : String → InitResponse
deriving Repr, DecidableEq

/-- HTTP status attached to each init response shape. -/
def initHttpStatus : InitResponse → Nat
  | InitResponse.badRequest _ => 400
  | InitResponse.okResp _ _ _ _ => 200
  | InitResponse.errorResp _ => 500

/-- The session initializer handler. The upstream parameter models the
combined token fetch and createResumableSession call, yielding the session
URL or a thrown error message; the returned Option SessionOpenArgs records
whether the handler proceeded to the upstream phase and with which
arguments (none when it rejected locally before any upstream call). -/
def handleUploadInit (req : InitRequest) (upstream : Except String String) :
    InitResponse × Option SessionOpenArgs :=
  if req.filename = "" ∨ req.size = 0 then
    (InitResponse.badRequest "Missing filename or size", none)
  else
    let args : SessionOpenArgs :=
      { filename := req.filename
        mimeType := if req.mimeType = "" then "application/octet-stream" else req.mimeType
        size := req.size }
    match upstream with
    | Except.error e => (InitResponse.errorResp e, some args)
    | Except.ok sessionUrl =>
        (InitResponse.okResp sessionUrl req.filename req.mimeType req.size, some args)

/-! ## Metadata-lookup retry helper (getFileDetailsWithRetry,
src/src/index.ts lines 1015-1049)

The loop runs attempt = 1 .. maxRetries (5); a successful attempt returns
its record at once; after a failed attempt with attempt < maxRetries it
waits Math.pow(2, attempt) * 1000 milliseconds; when every attempt failed
it shows a fallback record. -/

/-- Retry loop: attemptResult k is the record obtained by attempt number k
(none when the fetch fails or lacks ok/file), the second argument is the
number of attempts still allowed. Returns the record found, if any, and
the list of backoff delays waited, in milliseconds and in order. -/
def retryAux (attemptResult : Nat → Option FileRecord) :
    Nat → Nat → Option FileRecord × List Nat
  | _, 0 => (none, [])
  | attempt, 1 => (attemptResult attempt, [])
  | attempt, r + 2 =>
    match attemptResult attempt with
    | some f => (some f, [])
    | none =>
      let rest := retryAux attemptResult (attempt + 1) (r + 1)
      (rest.1, 2 ^ attempt * 1000 :: rest.2)

/-- Fallback record shown when all retries failed: the locally known
filename, no size, MIME type Unknown, and the file id when truthy, else
the sentinel string. -/
def retryFallbackRecord (fileId fallbackFilename : String) : FileRecord :=
  { id := if fileId = "" then "File ID retrieval failed" else fileId
    name := fallbackFilename
    size := none
    mimeType := "Unknown" }

/-- getFileDetailsWithRetry with its default maxRetries = 5: the record
finally shown together with the list of backoff delays waited. -/
def getFileDetailsWithRetry (fileId fallbackFilename : String)
    (attemptResult : Nat → Option FileRecord) : FileRecord × List Nat :=
  match retryAux attemptResult 1 5 with
  | (some f, ds) => (f, ds)
  | (none, ds) => (retryFallbackRecord fileId fallbackFilename, ds)

/-! ## Concrete scenario for the end-to-end chunk-failure claim: a 30-byte
file in 10-byte chunks where the upstream PUT of the third chunk returns
HTTP 500 with body text quota exceeded. -/

/-- Upstream responses of the scenario: chunk 2 fails with 500 and body
quota exceeded, earlier chunks get 308. -/
def quotaScenarioUpstream : Nat → UpstreamPutResponse
  | 2 => { status := 500, jsonBody := none, bodyText := some "quota exceeded" }
  | _ => { status := 308, jsonBody := none, bodyText := none }

/-- Chunk request the driver builds for chunk i of the scenario file. -/
def quotaScenarioRequest (i : Nat) : ChunkRequest :=
  { sessionUrl := some "https://upload.session"
    chunkStart := chunkStart 10 i
    chunkEnd := chunkEndEx 30 10 i - 1
    totalSize := 30
    isLast := isLastChunk 30 10 i
    payloadSize := chunkLen 30 10 i }

/-- Relay responses of the scenario, obtained by running the relay handler
on each chunk request against its upstream response. -/
def quotaScenarioRelay (i : Nat) : ChunkRelayResponse :=
  (handleChunkUpload (quotaScenarioRequest i) (quotaScenarioUpstream i)).1

/-- statusText of the scenario relay responses (fetch statusText for the
statuses the relay emits). -/
def quotaScenarioStatusText : Nat → String
  | 500 => "Internal Server Error"
  | _ => "OK"

/-! ## Helper lemmas on the chunk geometry -/

/-- Index i is a valid chunk index exactly when its start offset lies
inside the file. -/
theorem lt_totalChunks_iff (t c i : Nat) (hc : 0 < c) :
    i < totalChunks t c ↔ i * c < t := by
  unfold totalChunks
  rw [Nat.lt_iff_add_one_le, Nat.le_div_iff_mul_le hc, add_mul, one_mul]
  generalize i * c = m
  omega

/-- totalChunks many chunks of chunkSize bytes cover the file. -/
theorem totalChunks_mul_ge (t c : Nat) (hc : 0 < c) : t ≤ totalChunks t c * c := by
  by_contra h
  push_neg at h
  exact lt_irrefl _ ((lt_totalChunks_iff t c (totalChunks t c) hc).mpr h)

/-- A nonempty file has at least one chunk. -/
theorem totalChunks_pos (t c : Nat) (ht : 0 < t) (hc : 0 < c) :
    0 < totalChunks t c := by
  have := (lt_totalChunks_iff t c 0 hc).mpr (by simpa using ht)
  exact this

/-- Every valid chunk has a nonempty range. -/
theorem chunkStart_lt_chunkEndEx (t c i : Nat) (hc : 0 < c)
    (hi : i < totalChunks t c) :
    chunkStart c i < chunkEndEx t c i := by
  have h1 : i * c < t := (lt_totalChunks_iff t c i hc).mp hi
  have h2 : i * c < i * c + c := by omega
  exact lt_min h2 h1

/-- Consecutive chunk ranges are contiguous: the exclusive end of chunk i
is the start of chunk i + 1, for every non-final chunk. -/
theorem chunkEndEx_eq_next_start (t c i : Nat) (hc : 0 < c)
    (hi : i + 1 < totalChunks t c) :
    chunkEndEx t c i = chunkStart c (i + 1) := by
  have h1 : (i + 1) * c < t := (lt_totalChunks_iff t c (i + 1) hc).mp hi
  have h2 : i * c + c ≤ t := by
    have : (i + 1) * c = i * c + c := by ring
    omega
  unfold chunkEndEx chunkStart
  rw [min_eq_left h2]
  ring

/-- The final chunk ends exactly at the file size. -/
theorem chunkEndEx_last (t c : Nat) (ht : 0 < t) (hc : 0 < c) :
    chunkEndEx t c (totalChunks t c - 1) = t := by
  have htc : 0 < totalChunks t c := totalChunks_pos t c ht hc
  have h1 : (totalChunks t c - 1) * c + c = totalChunks t c * c := by
    have : totalChunks t c - 1 + 1 = totalChunks t c := by omega
    calc (totalChunks t c - 1) * c + c = (totalChunks t c - 1 + 1) * c := by ring
      _ = totalChunks t c * c := by rw [this]
  have h2 : t ≤ (totalChunks t c - 1) * c + c := by
    rw [h1]; exact totalChunks_mul_ge t c hc
  unfold chunkEndEx
  rw [min_eq_right h2]

/-- Every valid chunk slice holds at least one byte. -/
theorem chunkLen_pos (t c i : Nat) (hc : 0 < c) (hi : i < totalChunks t c) :
    0 < chunkLen t c i := by
  have := chunkStart_lt_chunkEndEx t c i hc hi
  unfold chunkLen
  omega

/-- After each successful chunk, uploadedBytes equals the exclusive end of
the slice just sent. -/
theorem bytesSentAfter_eq (t c : Nat) (hc : 0 < c) :
    ∀ i, i < totalChunks t c → bytesSentAfter t c i = chunkEndEx t c i := by
  intro i
  induction i with
  | zero =>
    intro _
    show chunkLen t c 0 = chunkEndEx t c 0
    unfold chunkLen chunkStart
    omega
  | succ k ih =>
    intro hk
    have hk' : k < totalChunks t c := by omega
    have hcontig := chunkEndEx_eq_next_start t c k hc hk
    have hlt := chunkStart_lt_chunkEndEx t c (k + 1) hc hk
    show bytesSentAfter t c k + chunkLen t c (k + 1) = chunkEndEx t c (k + 1)
    rw [ih hk', hcontig]
    unfold chunkLen
    omega

/-- C1: for every totalSize > 0 and chunkSize > 0, the driver computes
totalChunks as the ceiling of totalSize / chunkSize (characterized by
totalSize ≤ totalChunks * chunkSize and (totalChunks - 1) * chunkSize <
totalSize), slices chunk i over [i * chunkSize, min ((i+1) * chunkSize,
totalSize)) with the inclusive rangeEnd one below the exclusive bound, and
the ranges form a contiguous, non-overlapping, gap-free, ascending
partition of [0, totalSize): the first range starts at 0, each range is
nonempty, each non-final range ends exactly where the next begins, the
final range ends at totalSize (so its rangeEnd is totalSize - 1), and
among valid indices exactly the index totalChunks - 1 carries
isLast = true. -/
theorem chunk_partition_correct (t c : Nat) (ht : 0 < t) (hc : 0 < c) :
    t ≤ totalChunks t c * c ∧
    (totalChunks t c - 1) * c < t ∧
    chunkStart c 0 = 0 ∧
    (∀ i, chunkEndEx t c i = min ((i + 1) * c) t) ∧
    (∀ i, i < totalChunks t c → chunkStart c i < chunkEndEx t c i) ∧
    (∀ i, i + 1 < totalChunks t c → chunkEndEx t c i = chunkStart c (i + 1)) ∧
    chunkEndEx t c (totalChunks t c - 1) = t ∧
    (∀ i, i < totalChunks t c → (isLastChunk t c i = true ↔ i = totalChunks t c - 1)) := by
  have htc : 0 < totalChunks t c := totalChunks_pos t c ht hc
  refine ⟨totalChunks_mul_ge t c hc, ?_, ?_, ?_, ?_, ?_, ?_, ?_⟩
  · exact (lt_totalChunks_iff t c (totalChunks t c - 1) hc).mp (by omega)
  · simp [chunkStart]
  · intro i
    unfold chunkEndEx
    have : (i + 1) * c = i * c + c := by ring
    rw [this]
  · exact fun i hi => chunkStart_lt_chunkEndEx t c i hc hi
  · exact fun i hi => chunkEndEx_eq_next_start t c i hc hi
  · exact chunkEndEx_last t c ht hc
  · intro i _
    simp [isLastChunk]

/-- Witness for C1 at the totalSize 25000000, chunkSize 10485760 example
of the specification (three chunks). -/
theorem chunk_partition_correct_witness :
    25000000 ≤ totalChunks 25000000 10485760 * 10485760 ∧
    (totalChunks 25000000 10485760 - 1) * 10485760 < 25000000 ∧
    chunkStart 10485760 0 = 0 ∧
    (∀ i, chunkEndEx 25000000 10485760 i = min ((i + 1) * 10485760) 25000000) ∧
    (∀ i, i < totalChunks 25000000 10485760 →
        chunkStart 10485760 i < chunkEndEx 25000000 10485760 i) ∧
    (∀ i, i + 1 < totalChunks 25000000 10485760 →
        chunkEndEx 25000000 10485760 i = chunkStart 10485760 (i + 1)) ∧
    chunkEndEx 25000000 10485760 (totalChunks 25000000 10485760 - 1) = 25000000 ∧
    (∀ i, i < totalChunks 25000000 10485760 →
        (isLastChunk 25000000 10485760 i = true ↔ i = totalChunks 25000000 10485760 - 1)) :=
  chunk_partition_correct 25000000 10485760 (by decide) (by decide)

/-- C5 counterexample: with totalSize 1000 and chunkSize 999 there are two
chunks, the chunk of index 0 is not the last, yet the displayed percentage
after it is already exactly 100, because round (999 / 1000 * 100) = 100;
this refutes the part of the claim stating the percentage reaches exactly
100 only at or after the last chunk. -/
theorem progress_hits_100_early :
    totalChunks 1000 999 = 2 ∧
    isLastChunk 1000 999 0 = false ∧
    percentage (bytesSentAfter 1000 999 0) 1000 = 100 := by decide

/-- C5 amended: across successful chunks uploadedBytes strictly increases
by exactly the byte length of the chunk just sent, after the final chunk
uploadedBytes equals totalSize and the displayed percentage, computed as
round (uploadedBytes / totalSize * 100), is exactly 100 there; the
percentage can however already equal 100 on an earlier chunk (see the
counterexample), so it reaches 100 at the last chunk but not only there. -/
theorem progress_monotone (t c : Nat) (ht : 0 < t) (hc : 0 < c) :
    (∀ i, i + 1 < totalChunks t c →
        bytesSentAfter t c (i + 1) = bytesSentAfter t c i + chunkLen t c (i + 1) ∧
        bytesSentAfter t c i < bytesSentAfter t c (i + 1)) ∧
    bytesSentAfter t c (totalChunks t c - 1) = t ∧
    percentage (bytesSentAfter t c (totalChunks t c - 1)) t = 100 := by
  have htc : 0 < totalChunks t c := totalChunks_pos t c ht hc
  have hlast : bytesSentAfter t c (totalChunks t c - 1) = t := by
    rw [bytesSentAfter_eq t c hc (totalChunks t c - 1) (by omega)]
    exact chunkEndEx_last t c ht hc
  refine ⟨?_, hlast, ?_⟩
  · intro i hi
    have hstep : bytesSentAfter t c (i + 1)
        = bytesSentAfter t c i + chunkLen t c (i + 1) := rfl
    have hpos : 0 < chunkLen t c (i + 1) := chunkLen_pos t c (i + 1) hc hi
    exact ⟨hstep, by omega⟩
  · rw [hlast]
    unfold percentage
    have hsplit : 200 * t + t = 2 * t * 100 + t := by ring
    rw [hsplit, Nat.mul_add_div (by omega), Nat.div_eq_of_lt (by omega)]

/-- Witness for the amended C5 at totalSize 25000000, chunkSize 10485760. -/
theorem progress_monotone_witness :
    (∀ i, i + 1 < totalChunks 25000000 10485760 →
        bytesSentAfter 25000000 10485760 (i + 1)
          = bytesSentAfter 25000000 10485760 i + chunkLen 25000000 10485760 (i + 1) ∧
        bytesSentAfter 25000000 10485760 i < bytesSentAfter 25000000 10485760 (i + 1)) ∧
    bytesSentAfter 25000000 10485760 (totalChunks 25000000 10485760 - 1) = 25000000 ∧
    percentage (bytesSentAfter 25000000 10485760 (totalChunks 25000000 10485760 - 1))
        25000000 = 100 :=
  progress_monotone 25000000 10485760 (by decide) (by decide)

/-- C2 counterexample: when the upstream PUT returns a status other than
308, 200 and 201 and the response body cannot be read, the relay reports
the failure message with an empty-string tail (the .catch handler of
response.text() yields an empty string), not with a no body sentinel
marker; the claim as stated is therefore false in its final clause. -/
theorem relay_failure_empty_body_marker :
    (handleChunkUpload
        { sessionUrl := some "https://upload.session", chunkStart := 0, chunkEnd := 9,
          totalSize := 10, isLast := true, payloadSize := 10 }
        { status := 500, jsonBody := none, bodyText := none }).1
      = ChunkRelayResponse.failedResp "Upload failed with status 500: " ∧
    (handleChunkUpload
        { sessionUrl := some "https://upload.session", chunkStart := 0, chunkEnd := 9,
          totalSize := 10, isLast := true, payloadSize := 10 }
        { status := 500, jsonBody := none, bodyText := none }).1
      ≠ ChunkRelayResponse.failedResp "Upload failed with status 500: <no body>" := by
  decide

/-- C2 amended: for every chunk request with a session URL and a payload
within the transport ceiling, the relay returns the Continue response
exactly when the upstream status is 308, returns the Complete response
exactly when the upstream status is 200 or 201 (carrying the parsed body
as fileData when it parses and nothing otherwise), and for every other
upstream status returns a 500 failure whose message carries the upstream
status and the response body text verbatim where available, else the
empty string. -/
theorem relay_outcome_mapping (req : ChunkRequest) (s : String)
    (hs : req.sessionUrl = some s) (hp : req.payloadSize ≤ MAX_CHUNK_SIZE)
    (upC upK upF : UpstreamPutResponse)
    (hC : upC.status = 308) (hK : upK.status = 200 ∨ upK.status = 201)
    (hF1 : upF.status ≠ 308) (hF2 : upF.status ≠ 200) (hF3 : upF.status ≠ 201) :
    (handleChunkUpload req upC).1 = ChunkRelayResponse.continueResp ∧
    (handleChunkUpload req upK).1 = ChunkRelayResponse.completeResp upK.jsonBody ∧
    (handleChunkUpload req upF).1
      = ChunkRelayResponse.failedResp
          ("Upload failed with status " ++ toString upF.status ++ ": "
            ++ upF.bodyText.getD "") ∧
    relayHttpStatus (handleChunkUpload req upF).1 = 500 ∧
    (∀ up : UpstreamPutResponse,
        ((handleChunkUpload req up).1 = ChunkRelayResponse.continueResp ↔ up.status = 308) ∧
        ((∃ fd, (handleChunkUpload req up).1 = ChunkRelayResponse.completeResp fd)
          ↔ (up.status = 200 ∨ up.status = 201))) := by
  have hp' : ¬ (req.payloadSize > MAX_CHUNK_SIZE) := by omega
  refine ⟨?_, ?_, ?_, ?_, ?_⟩
  · simp [handleChunkUpload, hs, hp', hC]
  · rcases hK with h | h <;> simp [handleChunkUpload, hs, hp', h]
  · simp [handleChunkUpload, hs, hp', hF1, hF2, hF3, relayErrorMessage]
  · simp [handleChunkUpload, hs, hp', hF1, hF2, hF3, relayHttpStatus]
  · intro up
    by_cases h308 : up.status = 308
    · simp [handleChunkUpload, hs, hp', h308]
    · by_cases hok : up.status = 200 ∨ up.status = 201
      · have hne : up.status ≠ 308 := h308
        rcases hok with h | h <;> simp [handleChunkUpload, hs, hp', h, hne]
      · push_neg at hok
        simp [handleChunkUpload, hs, hp', h308, hok.1, hok.2]

/-- Witness for the amended C2 on a concrete request with one upstream
response per outcome class. -/
theorem relay_outcome_mapping_witness :
    (handleChunkUpload
        { sessionUrl := some "https://upload.session", chunkStart := 0, chunkEnd := 4,
          totalSize := 10, isLast := false, payloadSize := 5 }
        { status := 308, jsonBody := none, bodyText := none }).1
      = ChunkRelayResponse.continueResp ∧
    (handleChunkUpload
        { sessionUrl := some "https://upload.session", chunkStart := 0, chunkEnd := 4,
          totalSize := 10, isLast := false, payloadSize := 5 }
        { status := 200,
          jsonBody := some { id := "f1", name := "a", size := some 10, mimeType := "x" },
          bodyText := some "body" }).1
      = ChunkRelayResponse.completeResp
          ({ status := 200,
             jsonBody := some { id := "f1", name := "a", size := some 10, mimeType := "x" },
             bodyText := some "body" : UpstreamPutResponse }).jsonBody ∧
    (handleChunkUpload
        { sessionUrl := some "https://upload.session", chunkStart := 0, chunkEnd := 4,
          totalSize := 10, isLast := false, payloadSize := 5 }
        { status := 503, jsonBody := none, bodyText := some "unavailable" }).1
      = ChunkRelayResponse.failedResp
          ("Upload failed with status "
            ++ toString ({ status := 503, jsonBody := none,
                           bodyText := some "unavailable" : UpstreamPutResponse }).status
            ++ ": "
            ++ ({ status := 503, jsonBody := none,
                  bodyText := some "unavailable" : UpstreamPutResponse }).bodyText.getD "") ∧
    relayHttpStatus (handleChunkUpload
        { sessionUrl := some "https://upload.session", chunkStart := 0, chunkEnd := 4,
          totalSize := 10, isLast := false, payloadSize := 5 }
        { status := 503, jsonBody := none, bodyText := some "unavailable" }).1 = 500 ∧
    (∀ up : UpstreamPutResponse,
        ((handleChunkUpload
            { sessionUrl := some "https://upload.session", chunkStart := 0, chunkEnd := 4,
              totalSize := 10, isLast := false, payloadSize := 5 } up).1
          = ChunkRelayResponse.continueResp ↔ up.status = 308) ∧
        ((∃ fd, (handleChunkUpload
            { sessionUrl := some "https://upload.session", chunkStart := 0, chunkEnd := 4,
              totalSize := 10, isLast := false, payloadSize := 5 } up).1
          = ChunkRelayResponse.completeResp fd)
          ↔ (up.status = 200 ∨ up.status = 201))) :=
  relay_outcome_mapping
    { sessionUrl := some "https://upload.session", chunkStart := 0, chunkEnd := 4,
      totalSize := 10, isLast := false, payloadSize := 5 }
    "https://upload.session" rfl (by decide)
    { status := 308, jsonBody := none, bodyText := none }
    { status := 200,
      jsonBody := some { id := "f1", name := "a", size := some 10, mimeType := "x" },
      bodyText := some "body" }
    { status := 503, jsonBody := none, bodyText := some "unavailable" }
    rfl (Or.inl rfl) (by decide) (by decide) (by decide)

/-- C3: a chunk request with a session URL whose payload exceeds 100 MiB
is rejected locally with the 413 oversize response and no upstream call is
made, so the upstream session state is untouched; a payload of at most 100
MiB is never rejected by this check. -/
theorem chunk_too_large_atomic (big small : ChunkRequest) (up1 up2 : UpstreamPutResponse)
    (s1 s2 : String) (hb : big.sessionUrl = some s1) (hsm : small.sessionUrl = some s2)
    (hbig : MAX_CHUNK_SIZE < big.payloadSize) (hsmall : small.payloadSize ≤ MAX_CHUNK_SIZE) :
    (handleChunkUpload big up1).1 = ChunkRelayResponse.chunkTooLarge big.payloadSize ∧
    relayHttpStatus (handleChunkUpload big up1).1 = 413 ∧
    (handleChunkUpload big up1).2.upstreamCalled = false ∧
    (∀ n, (handleChunkUpload small up2).1 ≠ ChunkRelayResponse.chunkTooLarge n) := by
  have hsmall' : ¬ (small.payloadSize > MAX_CHUNK_SIZE) := by omega
  refine ⟨?_, ?_, ?_, ?_⟩
  · simp [handleChunkUpload, hb, hbig]
  · simp [handleChunkUpload, hb, hbig, relayHttpStatus]
  · simp [handleChunkUpload, hb, hbig]
  · intro n
    by_cases h308 : up2.status = 308
    · simp [handleChunkUpload, hsm, hsmall', h308]
    · by_cases hok : up2.status = 200 ∨ up2.status = 201
      · rcases hok with h | h <;> simp [handleChunkUpload, hsm, hsmall', h, h308]
      · push_neg at hok
        simp [handleChunkUpload, hsm, hsmall', h308, hok.1, hok.2]

/-- Witness for C3 with a payload one byte over the ceiling and a payload
well under it. -/
theorem chunk_too_large_atomic_witness :
    (handleChunkUpload
        { sessionUrl := some "https://upload.session", chunkStart := 0,
          chunkEnd := 104857600, totalSize := 204857601, isLast := false,
          payloadSize := 104857601 }
        { status := 308, jsonBody := none, bodyText := none }).1
      = ChunkRelayResponse.chunkTooLarge
          ({ sessionUrl := some "https://upload.session", chunkStart := 0,
             chunkEnd := 104857600, totalSize := 204857601, isLast := false,
             payloadSize := 104857601 : ChunkRequest }).payloadSize ∧
    relayHttpStatus (handleChunkUpload
        { sessionUrl := some "https://upload.session", chunkStart := 0,
          chunkEnd := 104857600, totalSize := 204857601, isLast := false,
          payloadSize := 104857601 }
        { status := 308, jsonBody := none, bodyText := none }).1 = 413 ∧
    (handleChunkUpload
        { sessionUrl := some "https://upload.session", chunkStart := 0,
          chunkEnd := 104857600, totalSize := 204857601, isLast := false,
          payloadSize := 104857601 }
        { status := 308, jsonBody := none, bodyText := none }).2.upstreamCalled = false ∧
    (∀ n, (handleChunkUpload
        { sessionUrl := some "https://upload.session", chunkStart := 0,
          chunkEnd := 104857599, totalSize := 204857601, isLast := false,
          payloadSize := 104857600 }
        { status := 308, jsonBody := none, bodyText := none }).1
      ≠ ChunkRelayResponse.chunkTooLarge n) :=
  chunk_too_large_atomic
    { sessionUrl := some "https://upload.session", chunkStart := 0,
      chunkEnd := 104857600, totalSize := 204857601, isLast := false,
      payloadSize := 104857601 }
    { sessionUrl := some "https://upload.session", chunkStart := 0,
      chunkEnd := 104857599, totalSize := 204857601, isLast := false,
      payloadSize := 104857600 }
    { status := 308, jsonBody := none, bodyText := none }
    { status := 308, jsonBody := none, bodyText := none }
    "https://upload.session" "https://upload.session" rfl rfl (by decide) (by decide)

/-- When every chunk before index i succeeds and chunk i fails, the loop
stops at i with the thrown message and exactly the chunks s, s+1, ..., i
were relayed. -/
theorem uploadLoopGo_fail (relayAt : Nat → ChunkRelayResponse) (stOf : Nat → String) :
    ∀ n s i : Nat, s ≤ i → i < s + n →
    (∀ j, s ≤ j → j < i → isOkStatus (relayHttpStatus (relayAt j)) = true) →
    isOkStatus (relayHttpStatus (relayAt i)) = false →
    uploadLoopGo relayAt stOf n s
      = (LoopResult.failed i
          (chunkFailMsg i (relayErrorField (relayAt i)) (stOf (relayHttpStatus (relayAt i)))),
         List.range' s (i - s + 1)) := by
  intro n
  induction n with
  | zero => intro s i h1 h2 _ _; omega
  | succ m ih =>
    intro s i h1 h2 hok hfail
    match m with
    | 0 =>
      have hsi : i = s := by omega
      subst hsi
      simp [uploadLoopGo, hfail, List.range']
    | k + 1 =>
      by_cases his : i = s
      · subst his
        simp [uploadLoopGo, hfail, List.range']
      · have hs : s < i := by omega
        have hoks : isOkStatus (relayHttpStatus (relayAt s)) = true :=
          hok s (le_refl s) hs
        have hrec := ih (s + 1) i (by omega) (by omega)
          (fun j hj1 hj2 => hok j (by omega) hj2) hfail
        show (let r := relayAt s
              if isOkStatus (relayHttpStatus r) then
                let rest := uploadLoopGo relayAt stOf (k + 1) (s + 1)
                (rest.1, s :: rest.2)
              else
                (LoopResult.failed s
                  (chunkFailMsg s (relayErrorField r) (stOf (relayHttpStatus r))), [s])) = _
        rw [show (k + 1 : Nat) = k + 1 from rfl]
        simp only [hoks, if_true, hrec]
        have hrange : List.range' s (i - s + 1)
            = s :: List.range' (s + 1) (i - (s + 1) + 1) := by
          have h3 : i - s + 1 = (i - (s + 1) + 1) + 1 := by omega
          rw [h3]
          exact List.range'_succ s (i - (s + 1) + 1) 1
        rw [hrange]

/-- C4 counterexample: in the end-to-end scenario of the claim (three
chunks, the upstream PUT of the third chunk answers HTTP 500 with body
quota exceeded) the driver aborts after chunk index 2 and surfaces the
message Chunk 3 upload failed: Upload failed with status 500: quota
exceeded, because the relay wraps the upstream status and body into its
error field; the surfaced message is not the Chunk 3 upload failed: quota
exceeded of the claim. -/
theorem quota_scenario_message :
    uploadFileInChunks { name := "report.bin", mimeType := "", size := 30 } 10
        quotaScenarioRelay quotaScenarioStatusText
      = DriverOutcome.failure
          "Chunk 3 upload failed: Upload failed with status 500: quota exceeded" ∧
    uploadFileInChunks { name := "report.bin", mimeType := "", size := 30 } 10
        quotaScenarioRelay quotaScenarioStatusText
      ≠ DriverOutcome.failure "Chunk 3 upload failed: quota exceeded" ∧
    (uploadLoopGo quotaScenarioRelay quotaScenarioStatusText 3 0).2 = [0, 1, 2] := by
  refine ⟨by decide, by decide, by decide⟩

/-- C4 amended: when the relay response for chunk i is non-ok and its JSON
body carries a nonempty error field msg, the driver aborts the transfer,
relays exactly the chunks 0 .. i (none of index greater than i), and
surfaces exactly the message Chunk (i+1) upload failed: msg with the
1-indexed chunk number; for an upstream chunk PUT failing with status s
and body b, msg is the relay-wrapped text Upload failed with status s: b,
so the end-to-end scenario of the claim surfaces Chunk 3 upload failed:
Upload failed with status 500: quota exceeded. -/
theorem chunk_failure_aborts (file : FileMeta) (c i : Nat)
    (relayAt : Nat → ChunkRelayResponse) (stOf : Nat → String) (msg : String)
    (hi : i < totalChunks file.size c)
    (hok : ∀ j, j < i → isOkStatus (relayHttpStatus (relayAt j)) = true)
    (hfail : isOkStatus (relayHttpStatus (relayAt i)) = false)
    (herr : relayErrorField (relayAt i) = msg) (hmsg : msg ≠ "") :
    uploadFileInChunks file c relayAt stOf
      = DriverOutcome.failure ("Chunk " ++ toString (i + 1) ++ " upload failed: " ++ msg) ∧
    (uploadLoopGo relayAt stOf (totalChunks file.size c) 0).2 = List.range (i + 1) := by
  have h := uploadLoopGo_fail relayAt stOf (totalChunks file.size c) 0 i
    (Nat.zero_le i) (by omega) (fun j _ hj => hok j hj) hfail
  constructor
  · unfold uploadFileInChunks
    rw [h]
    simp [chunkFailMsg, herr, hmsg]
  · rw [h]
    rw [List.range_eq_range']
    simp

/-- Witness for the amended C4 at the quota-exceeded scenario. -/
theorem chunk_failure_aborts_witness :
    uploadFileInChunks { name := "report.bin", mimeType := "", size := 30 } 10
        quotaScenarioRelay quotaScenarioStatusText
      = DriverOutcome.failure
          ("Chunk " ++ toString (2 + 1) ++ " upload failed: "
            ++ "Upload failed with status 500: quota exceeded") ∧
    (uploadLoopGo quotaScenarioRelay quotaScenarioStatusText
        (totalChunks ({ name := "report.bin", mimeType := "", size := 30 } : FileMeta).size 10)
        0).2
      = List.range (2 + 1) :=
  chunk_failure_aborts { name := "report.bin", mimeType := "", size := 30 } 10 2
    quotaScenarioRelay quotaScenarioStatusText
    "Upload failed with status 500: quota exceeded"
    (by decide) (by decide) (by decide) (by decide) (by decide)

/-- C6: when all chunks succeed but the final Complete outcome carries no
fileData, the driver still reports overall success, presenting a
synthesized record whose name, size and MIME type are the locally known
file values (the MIME type defaulted to application/octet-stream when the
browser reported none) and whose id is the sentinel string Upload
completed successfully, never a failure for the byte-complete upload. -/
theorem fallback_on_missing_metadata (file : FileMeta) (c : Nat)
    (relayAt : Nat → ChunkRelayResponse) (stOf : Nat → String)
    (h : (uploadLoopGo relayAt stOf (totalChunks file.size c) 0).1
          = LoopResult.completed none) :
    uploadFileInChunks file c relayAt stOf = DriverOutcome.success (fallbackRecord file) ∧
    (fallbackRecord file).name = file.name ∧
    (fallbackRecord file).size = some file.size ∧
    (fallbackRecord file).mimeType
      = (if file.mimeType = "" then "application/octet-stream" else file.mimeType) ∧
    (fallbackRecord file).id = "Upload completed successfully" ∧
    (∀ msg, uploadFileInChunks file c relayAt stOf ≠ DriverOutcome.failure msg) := by
  have hmain : uploadFileInChunks file c relayAt stOf
      = DriverOutcome.success (fallbackRecord file) := by
    unfold uploadFileInChunks
    rw [h]
  refine ⟨hmain, rfl, rfl, rfl, rfl, ?_⟩
  intro msg
  rw [hmain]
  simp

/-- Witness for C6: a one-chunk upload whose final Complete response
carries no fileData. -/
theorem fallback_on_missing_metadata_witness :
    uploadFileInChunks { name := "a.bin", mimeType := "", size := 5 } 5
        (fun _ => ChunkRelayResponse.completeResp none) (fun _ => "OK")
      = DriverOutcome.success
          (fallbackRecord { name := "a.bin", mimeType := "", size := 5 }) ∧
    (fallbackRecord { name := "a.bin", mimeType := "", size := 5 }).name
      = ({ name := "a.bin", mimeType := "", size := 5 } : FileMeta).name ∧
    (fallbackRecord { name := "a.bin", mimeType := "", size := 5 }).size
      = some ({ name := "a.bin", mimeType := "", size := 5 } : FileMeta).size ∧
    (fallbackRecord { name := "a.bin", mimeType := "", size := 5 }).mimeType
      = (if ({ name := "a.bin", mimeType := "", size := 5 } : FileMeta).mimeType = ""
          then "application/octet-stream"
          else ({ name := "a.bin", mimeType := "", size := 5 } : FileMeta).mimeType) ∧
    (fallbackRecord { name := "a.bin", mimeType := "", size := 5 }).id
      = "Upload completed successfully" ∧
    (∀ msg, uploadFileInChunks { name := "a.bin", mimeType := "", size := 5 } 5
        (fun _ => ChunkRelayResponse.completeResp none) (fun _ => "OK")
      ≠ DriverOutcome.failure msg) :=
  fallback_on_missing_metadata { name := "a.bin", mimeType := "", size := 5 } 5
    (fun _ => ChunkRelayResponse.completeResp none) (fun _ => "OK") (by decide)

/-- C7: an upload-init request with an empty or missing filename or a
missing or zero size is rejected with the 400 response Missing filename or
size and no upstream phase is entered (neither token fetch nor session
open); a request passing validation with an absent mimeType enters the
upstream phase with the mimeType defaulted to application/octet-stream in
the session-open arguments. -/
theorem init_validation (req good : InitRequest) (up : Except String String)
    (hbad : req.filename = "" ∨ req.size = 0)
    (hgf : good.filename ≠ "") (hgs : good.size ≠ 0) (hgm : good.mimeType = "") :
    (handleUploadInit req up).1 = InitResponse.badRequest "Missing filename or size" ∧
    initHttpStatus (handleUploadInit req up).1 = 400 ∧
    (handleUploadInit req up).2 = none ∧
    (∃ args : SessionOpenArgs, (handleUploadInit good up).2 = some args ∧
        args.mimeType = "application/octet-stream" ∧
        args.filename = good.filename ∧ args.size = good.size) := by
  have hgood : ¬ (good.filename = "" ∨ good.size = 0) := by
    intro hcon
    rcases hcon with h | h
    · exact hgf h
    · exact hgs h
  refine ⟨?_, ?_, ?_, ?_⟩
  · simp [handleUploadInit, hbad]
  · simp [handleUploadInit, hbad, initHttpStatus]
  · simp [handleUploadInit, hbad]
  · refine ⟨{ filename := good.filename,
              mimeType := if good.mimeType = "" then "application/octet-stream"
                          else good.mimeType,
              size := good.size }, ?_, ?_, rfl, rfl⟩
    · cases up <;> simp [handleUploadInit, hgood]
    · simp [hgm]

/-- Witness for C7: an empty init request against a well-formed one with
no mimeType. -/
theorem init_validation_witness :
    (handleUploadInit { filename := "", mimeType := "", size := 0 } (Except.ok "url")).1
      = InitResponse.badRequest "Missing filename or size" ∧
    initHttpStatus
        (handleUploadInit { filename := "", mimeType := "", size := 0 }
          (Except.ok "url")).1 = 400 ∧
    (handleUploadInit { filename := "", mimeType := "", size := 0 }
        (Except.ok "url")).2 = none ∧
    (∃ args : SessionOpenArgs,
        (handleUploadInit { filename := "a.txt", mimeType := "", size := 7 }
            (Except.ok "url")).2 = some args ∧
        args.mimeType = "application/octet-stream" ∧
        args.filename = ({ filename := "a.txt", mimeType := "", size := 7 }
            : InitRequest).filename ∧
        args.size = ({ filename := "a.txt", mimeType := "", size := 7 }
            : InitRequest).size) :=
  init_validation { filename := "", mimeType := "", size := 0 }
    { filename := "a.txt", mimeType := "", size := 7 } (Except.ok "url")
    (Or.inl rfl) (by decide) (by decide) rfl

/-- C8 counterexample: when every attempt fails, the backoff delays waited
by getFileDetailsWithRetry are 2000, 4000, 8000 and 16000 milliseconds
(Math.pow(2, attempt) * 1000 for attempts 1 to 4), not the 1s, 2s, 4s,
8s, 16s schedule starting at 1s stated by the claim. -/
theorem retry_first_delay_2000 :
    (getFileDetailsWithRetry "fileid123" "f.txt" (fun _ => none)).2
      = [2000, 4000, 8000, 16000] ∧
    (getFileDetailsWithRetry "fileid123" "f.txt" (fun _ => none)).2
      ≠ [1000, 2000, 4000, 8000, 16000] := by
  refine ⟨by decide, by decide⟩

/-- C8 amended: the metadata-lookup retry helper makes up to 5 attempts;
after a failed attempt k with attempts remaining it waits 2 to the power k
seconds, so the delays between the five attempts are 2s, 4s, 8s and 16s,
and after the 5th failed attempt it degrades to the synthesized
placeholder record (shown as success) rather than failing the operation. -/
theorem retry_schedule (fileId fallbackFilename : String)
    (attemptResult : Nat → Option FileRecord)
    (h1 : attemptResult 1 = none) (h2 : attemptResult 2 = none)
    (h3 : attemptResult 3 = none) (h4 : attemptResult 4 = none)
    (h5 : attemptResult 5 = none) :
    getFileDetailsWithRetry fileId fallbackFilename attemptResult
      = (retryFallbackRecord fileId fallbackFilename, [2000, 4000, 8000, 16000]) := by
  unfold getFileDetailsWithRetry
  simp only [retryAux]
  rw [h1, h2, h3, h4, h5]
  rfl

/-- Witness for the amended C8 with every attempt failing. -/
theorem retry_schedule_witness :
    getFileDetailsWithRetry "id42" "doc.pdf" (fun _ => none)
      = (retryFallbackRecord "id42" "doc.pdf", [2000, 4000, 8000, 16000]) :=
  retry_schedule "id42" "doc.pdf" (fun _ => none) rfl rfl rfl rfl rfl

/-- C9: a chunk request without the X-Session-Url header is answered with
the 400 response whose error field is Missing session URL, the request
payload is never read and no upstream call is made, so the rejection has
no upstream side effect. -/
theorem missing_session_atomic (req : ChunkRequest) (up : UpstreamPutResponse)
    (h : req.sessionUrl = none) :
    (handleChunkUpload req up).1 = ChunkRelayResponse.missingSession ∧
    relayHttpStatus (handleChunkUpload req up).1 = 400 ∧
    relayErrorField (handleChunkUpload req up).1 = "Missing session URL" ∧
    (handleChunkUpload req up).2.bodyRead = false ∧
    (handleChunkUpload req up).2.upstreamCalled = false := by
  refine ⟨?_, ?_, ?_, ?_, ?_⟩ <;>
    simp [handleChunkUpload, h, relayHttpStatus, relayErrorField]

/-- Witness for C9 on a concrete header-less request. -/
theorem missing_session_atomic_witness :
    (handleChunkUpload
        { sessionUrl := none, chunkStart := 0, chunkEnd := 9, totalSize := 10,
          isLast := false, payloadSize := 10 }
        { status := 308, jsonBody := none, bodyText := none }).1
      = ChunkRelayResponse.missingSession ∧
    relayHttpStatus (handleChunkUpload
        { sessionUrl := none, chunkStart := 0, chunkEnd := 9, totalSize := 10,
          isLast := false, payloadSize := 10 }
        { status := 308, jsonBody := none, bodyText := none }).1 = 400 ∧
    relayErrorField (handleChunkUpload
        { sessionUrl := none, chunkStart := 0, chunkEnd := 9, totalSize := 10,
          isLast := false, payloadSize := 10 }
        { status := 308, jsonBody := none, bodyText := none }).1
      = "Missing session URL" ∧
    (handleChunkUpload
        { sessionUrl := none, chunkStart := 0, chunkEnd := 9, totalSize := 10,
          isLast := false, payloadSize := 10 }
        { status := 308, jsonBody := none, bodyText := none }).2.bodyRead = false ∧
    (handleChunkUpload
        { sessionUrl := none, chunkStart := 0, chunkEnd := 9, totalSize := 10,
          isLast := false, payloadSize := 10 }
        { status := 308, jsonBody := none, bodyText := none }).2.upstreamCalled = false :=
  missing_session_atomic
    { sessionUrl := none, chunkStart := 0, chunkEnd := 9, totalSize := 10,
      isLast := false, payloadSize := 10 }
    { status := 308, jsonBody := none, bodyText := none } rfl

/-- C10: the server enforces no upper bound on the declared size: every
init request with a nonempty filename and a nonzero size, however large,
reaches the upstream session-open phase with exactly that size, and the
chunk relay never sees a chunkSize configuration value, issuing the
upstream call for any payload within the 100 MiB transport ceiling
regardless of the 1 MiB lower bound or the 5 * 10^12 totalSize bound that
exist only client-side. -/
theorem no_server_size_bounds (filename mimeType : String) (size : Nat)
    (up : Except String String) (req : ChunkRequest) (s : String)
    (upr : UpstreamPutResponse)
    (hf : filename ≠ "") (hsz : size ≠ 0)
    (hr : req.sessionUrl = some s) (hp : req.payloadSize ≤ MAX_CHUNK_SIZE) :
    (∃ args : SessionOpenArgs,
        (handleUploadInit { filename := filename, mimeType := mimeType, size := size }
            up).2 = some args ∧
        args.size = size ∧ args.filename = filename) ∧
    (handleChunkUpload req upr).2.upstreamCalled = true := by
  have hgood : ¬ ((filename = "" ∨ size = 0)) := by
    intro hcon
    rcases hcon with h | h
    · exact hf h
    · exact hsz h
  have hp' : ¬ (req.payloadSize > MAX_CHUNK_SIZE) := by omega
  constructor
  · refine ⟨{ filename := filename,
              mimeType := if mimeType = "" then "application/octet-stream" else mimeType,
              size := size }, ?_, rfl, rfl⟩
    cases up <;> simp [handleUploadInit, hgood]
  · by_cases h308 : upr.status = 308
    · simp [handleChunkUpload, hr, hp', h308]
    · by_cases hok : upr.status = 200 ∨ upr.status = 201
      · rcases hok with h | h <;> simp [handleChunkUpload, hr, hp', h, h308]
      · push_neg at hok
        simp [handleChunkUpload, hr, hp', h308, hok.1, hok.2]

/-- Witness for C10 with a declared size of 6 * 10^12 bytes, above the
client-side 5 * 10^12 bound, and a 512-byte payload, below the
client-side 1 MiB minimum chunk size. -/
theorem no_server_size_bounds_witness :
    (∃ args : SessionOpenArgs,
        (handleUploadInit
            { filename := "huge.iso", mimeType := "", size := 6000000000000 }
            (Except.ok "url")).2 = some args ∧
        args.size = 6000000000000 ∧ args.filename = "huge.iso") ∧
    (handleChunkUpload
        { sessionUrl := some "https://upload.session", chunkStart := 0,
          chunkEnd := 511, totalSize := 6000000000000, isLast := false,
          payloadSize := 512 }
        { status := 308, jsonBody := none, bodyText := none }).2.upstreamCalled = true :=
  no_server_size_bounds "huge.iso" "" 6000000000000 (Except.ok "url")
    { sessionUrl := some "https://upload.session", chunkStart := 0,
      chunkEnd := 511, totalSize := 6000000000000, isLast := false,
      payloadSize := 512 }
    "https://upload.session"
    { status := 308, jsonBody := none, bodyText := none }
    (by decide) (by decide) rfl (by decide)

end DriveUploader

